import Mathlib

/-!
Verification of the Fusion quickstart notebook's modeling-layer contract.

The repository's only source file is the notebook
`src/Fusion/Quickstart/Fusion Quickstart.ipynb`, which drives the external
`mosek.fusion` object-oriented modeling API (Model, Domain, Expr, Variable)
on a small conic-quadratic problem. The modeling library itself is not part
of the repository, so the definitions below are modelled from the spec's
design of that layer (domain catalog, expression builder, model/handle
bookkeeping, solve/query lifecycle), while the concrete problem data and
the recorded solver outputs are taken verbatim from the notebook cells.
-/

set_option autoImplicit false

namespace Fusion

/-- Modelled from the spec: the modeling-layer error taxonomy of §7
(ShapeError, DimensionError, DuplicateNameError, NotSolvedError); the
`mosek.fusion` library raising these is absent from the repository. -/
inductive FusionError where
  | shapeError
  | dimensionError
  | duplicateNameError
  | notSolvedError
deriving DecidableEq

/-- Modelled from the spec: the enumerated `SolutionStatus` attached
independently to primal and dual solutions. -/
inductive SolutionStatus where
  | optimal
  | infeasible
  | unbounded
  | unknown
deriving DecidableEq

/-- Modelled from the spec: the domain catalog — box range, equality
target, unboundedness, the second-order (quadratic) cone and the rotated
quadratic cone, as used by the notebook's `Domain.inRange`,
`Domain.unbounded`, `Domain.equalsTo` and `Domain.inQCone`. -/
inductive Domain where
  | inRange (lx ux : List ℚ)
  | unbounded
  | equalsTo (b : List ℚ)
  | inQCone
  | inRotatedQCone
deriving DecidableEq

/-- The dimension a domain prescribes, when it prescribes one: the cone
domains and unboundedness take their dimension from the constrained
expression, matching the notebook's argument-free `Domain.inQCone()`. -/
def Domain.dim : Domain → Option Nat
  | .inRange lx _ => some lx.length
  | .equalsTo b => some b.length
  | _ => none

/-- Modelled from the spec: the immutable symbolic expression tree built
by the `Expr`/`Variable` combinators — variable references, dense
constants, matrix-vector products and vertical stacking. -/
inductive Expr where
  | varRef (idx : Nat) (len : Nat)
  | constE (v : List ℚ)
  | mulE (A : List (List ℚ)) (e : Expr)
  | vstackE (e1 e2 : Expr)
deriving DecidableEq

/-- Number of rows (entries) of an expression. -/
def Expr.len : Expr → Nat
  | .varRef _ n => n
  | .constE v => v.length
  | .mulE A _ => A.length
  | .vstackE a b => a.len + b.len

/-- Dot product of two rational vectors, truncating to the shorter one. -/
def dot (r v : List ℚ) : ℚ := (List.zipWith (fun a b => a * b) r v).sum

/-- Linear-algebra meaning of an expression under an assignment of value
vectors to variable indices. -/
def Expr.eval : Expr → (Nat → List ℚ) → List ℚ
  | .varRef i _, σ => σ i
  | .constE v, _ => v
  | .mulE A e, σ => A.map (fun row => dot row (Expr.eval e σ))
  | .vstackE a b, σ => Expr.eval a σ ++ Expr.eval b σ

/-- Modelled from the spec: the matrix-multiply combinator `Expr.mul`.
Its constant matrix operand is a plain nested list of numbers whose inner
lists are the matrix rows; every row's length (the column count) must
equal the operand expression's row count, otherwise construction fails
with a DimensionError at build time. -/
def Expr.mul (A : List (List ℚ)) (e : Expr) : Except FusionError Expr :=
  if ∀ r ∈ A, r.length = e.len then .ok (.mulE A e) else .error .dimensionError

/-- Modelled from the spec: an opaque variable handle — a small value-type
index into the owning model's variable table, carrying the declared shape
so that handle-level combinators such as `Variable.vstack` know their
operand dimensions. -/
structure VariableHandle where
  idx : Nat
  shape : Nat
deriving DecidableEq

/-- The expression that just reads a variable handle's value. -/
def VariableHandle.toExpr (h : VariableHandle) : Expr := .varRef h.idx h.shape

/-- Modelled from the spec: the notebook's `Variable.vstack`, stacking two
variable handles vertically into one expression, first operand on top. -/
def Variable.vstack (t x : VariableHandle) : Expr := .vstackE t.toExpr x.toExpr

/-- Modelled from the spec: an opaque constraint handle — an index into
the owning model's constraint table. -/
structure ConstraintHandle where
  idx : Nat
deriving DecidableEq

/-- A declared variable: name, shape (vector length) and domain. -/
structure VarDecl where
  name : String
  shape : Nat
  dom : Domain
deriving DecidableEq

/-- A declared constraint: an expression bound to a domain. -/
structure ConDecl where
  expr : Expr
  dom : Domain
deriving DecidableEq

/-- Default variable record used with `List.getD`. -/
def dVarDecl : VarDecl := ⟨"", 0, Domain.unbounded⟩

/-- Default constraint record used with `List.getD`. -/
def dConDecl : ConDecl := ⟨Expr.constE [], Domain.unbounded⟩

/-- Objective sense. -/
inductive Sense where
  | minimize
  | maximize
deriving DecidableEq

/-- The frozen problem description handed to the external solver. -/
structure Problem where
  vars : List VarDecl
  cons : List ConDecl
  obj : Option (Sense × Expr)
deriving DecidableEq

/-- Modelled from the spec: what the external solver returns — a status
pair and, per declared variable and constraint, a numeric value vector
(primal level, dual multiplier). -/
structure Solution where
  primalStatus : SolutionStatus
  dualStatus : SolutionStatus
  varLevels : List (List ℚ)
  conDuals : List (List ℚ)
deriving DecidableEq

/-- Modelled from the spec: the mutable `Model` container — declared
variables, declared constraints, at most one objective, and the result of
the latest solve (`none` before any solve). -/
structure Model where
  vars : List VarDecl
  cons : List ConDecl
  obj : Option (Sense × Expr)
  sol : Option Solution
deriving DecidableEq

/-- A freshly created empty model, the notebook's `M = Model()`. -/
def Model.empty : Model := ⟨[], [], none, none⟩

/-- Modelled from the spec: `declareVariable(name, shape, domain)`
(the notebook's `M.variable`): registers a new variable and returns its
handle; fails with DuplicateNameError on a name collision in this model's
namespace and with ShapeError on a non-positive shape. -/
def Model.declareVariable (M : Model) (name : String) (shape : Nat) (dom : Domain) :
    Except FusionError (Model × VariableHandle) :=
  if ∃ v ∈ M.vars, v.name = name then .error .duplicateNameError
  else if shape = 0 then .error .shapeError
  else .ok (⟨M.vars ++ [⟨name, shape, dom⟩], M.cons, M.obj, M.sol⟩,
            ⟨M.vars.length, shape⟩)

/-- Modelled from the spec: `declareConstraint(expression, domain)`
(the notebook's `M.constraint`): registers a bound constraint and returns
its handle; fails with DimensionError when the expression shape and the
domain's prescribed shape disagree. -/
def Model.declareConstraint (M : Model) (e : Expr) (dom : Domain) :
    Except FusionError (Model × ConstraintHandle) :=
  match dom.dim with
  | some d =>
      if e.len = d then
        .ok (⟨M.vars, M.cons ++ [⟨e, dom⟩], M.obj, M.sol⟩, ⟨M.cons.length⟩)
      else .error .dimensionError
  | none => .ok (⟨M.vars, M.cons ++ [⟨e, dom⟩], M.obj, M.sol⟩, ⟨M.cons.length⟩)

/-- Modelled from the spec: `setObjective(sense, expression)` (the
notebook's `M.objective`): replaces any prior objective; the expression
must reduce to a scalar, otherwise DimensionError. -/
def Model.setObjective (M : Model) (sense : Sense) (e : Expr) : Except FusionError Model :=
  if e.len = 1 then .ok ⟨M.vars, M.cons, some (sense, e), M.sol⟩
  else .error .dimensionError

/-- The frozen description of the model's accumulated declarations. -/
def Model.problem (M : Model) : Problem := ⟨M.vars, M.cons, M.obj⟩

/-- Modelled from the spec: `solve()` freezes the declared model, hands it
to the external solver (an opaque collaborator, passed here as a function)
and records the returned statuses and values in place, overwriting any
prior results. Solver-reported outcomes are data in the recorded
`Solution`, never a thrown error. -/
def Model.solve (M : Model) (solver : Problem → Solution) : Model :=
  ⟨M.vars, M.cons, M.obj, some (solver M.problem)⟩

/-- Modelled from the spec: `primalValue(handle)` (the notebook's
`x.level()`): the latest primal value vector of a variable; fails with
NotSolvedError before any solve. -/
def Model.primalValue (M : Model) (h : VariableHandle) : Except FusionError (List ℚ) :=
  match M.sol with
  | none => .error .notSolvedError
  | some s => .ok (s.varLevels.getD h.idx [])

/-- Modelled from the spec: `dualValue(handle)` (the notebook's
`le.dual()`): the latest dual multiplier vector of a constraint; fails
with NotSolvedError before any solve. -/
def Model.dualValue (M : Model) (hc : ConstraintHandle) : Except FusionError (List ℚ) :=
  match M.sol with
  | none => .error .notSolvedError
  | some s => .ok (s.conDuals.getD hc.idx [])

/-- Modelled from the spec: `primalStatus()` (the notebook's
`M.getPrimalSolutionStatus()`); NotSolvedError before any solve. -/
def Model.primalStatus (M : Model) : Except FusionError SolutionStatus :=
  match M.sol with
  | none => .error .notSolvedError
  | some s => .ok s.primalStatus

/-- Modelled from the spec: `dualStatus()` (the notebook's
`M.getDualSolutionStatus()`); NotSolvedError before any solve. -/
def Model.dualStatus (M : Model) : Except FusionError SolutionStatus :=
  match M.sol with
  | none => .error .notSolvedError
  | some s => .ok s.dualStatus

/-- Modelled from the spec (§6): the external solver's output contract —
for every declared variable a primal level vector of the declared shape,
and for every declared constraint a dual multiplier vector with as many
entries as the constraint expression has rows. -/
def SolutionConforms (p : Problem) (s : Solution) : Prop :=
  (∀ i, i < p.vars.length →
    (s.varLevels.getD i []).length = (p.vars.getD i dVarDecl).shape) ∧
  (∀ i, i < p.cons.length →
    (s.conDuals.getD i []).length = (p.cons.getD i dConDecl).expr.len)

/-- Absolute value on ℚ, kept as a plain conditional so tolerance checks
evaluate by `decide`. -/
def absQ (q : ℚ) : ℚ := if q < 0 then -q else q

/-! ### The notebook's concrete problem data (source cells 1–6) -/

/-- The 3×5 coefficient matrix `A` of the notebook (a plain nested list). -/
def nbA : List (List ℚ) :=
  [[12, 20, 0, 25, 15],
   [2, 8, 16, 0, 0],
   [20, 20, 20, 20, 20]]

/-- The target vector `b` of the notebook. -/
def nbB : List ℚ := [288, 192, 384]

/-- Lower bounds `lx = [0.]*5` of the notebook. -/
def nbLx : List ℚ := List.replicate 5 0

/-- Upper bounds `ux = [1000.]*5` of the notebook. -/
def nbUx : List ℚ := List.replicate 5 1000

/-- The notebook's model-building sequence: declare `x` and `t`, bind
`[t, x]` to the quadratic cone, bind `A·x` to `equalsTo(b)` (handle `le`),
set the objective `minimize t`. Returns the populated model with the
handles of `x`, `t` and `le`. -/
def nbBuild : Except FusionError (Model × VariableHandle × VariableHandle × ConstraintHandle) := do
  let (m1, x) ← Model.empty.declareVariable "x" 5 (Domain.inRange nbLx nbUx)
  let (m2, t) ← m1.declareVariable "t" 1 Domain.unbounded
  let (m3, _) ← m2.declareConstraint (Variable.vstack t x) Domain.inQCone
  let ax ← Expr.mul nbA x.toExpr
  let (m4, le) ← m3.declareConstraint ax (Domain.equalsTo nbB)
  let m5 ← m4.setObjective Sense.minimize t.toExpr
  return (m5, x, t, le)

/-- The populated (not yet solved) notebook model. -/
def nbModel : Model :=
  (nbBuild.toOption.getD (Model.empty, ⟨0, 0⟩, ⟨0, 0⟩, ⟨0⟩)).1

/-- The handle of the notebook variable `x`. -/
def xHandle : VariableHandle :=
  (nbBuild.toOption.getD (Model.empty, ⟨0, 0⟩, ⟨0, 0⟩, ⟨0⟩)).2.1

/-- The handle of the notebook variable `t`. -/
def tHandle : VariableHandle :=
  (nbBuild.toOption.getD (Model.empty, ⟨0, 0⟩, ⟨0, 0⟩, ⟨0⟩)).2.2.1

/-- The handle `le` of the notebook constraint `A·x = b`. -/
def leHandle : ConstraintHandle :=
  (nbBuild.toOption.getD (Model.empty, ⟨0, 0⟩, ⟨0, 0⟩, ⟨0⟩)).2.2.2

/-- The primal level of `x` printed by the notebook's output cell 7. -/
def nbXLevel : List ℚ :=
  [-12462112350726904 / 10 ^ 24,
   14399999925447373 / 10 ^ 15,
   4800000005447712 / 10 ^ 15,
   41706478408768495 / 10 ^ 24,
   -13557713255520233 / 10 ^ 24]

/-- Modelled from the spec: the level of `t` is not printed by the
notebook; the spec's cone constraint makes `t ≈ ‖x‖₂` at the optimum, so
it is modelled as a decimal approximation of the recorded `‖x‖₂`. -/
def nbTLevel : ℚ := 1517893 / 100000

/-- The dual multiplier of `le` printed by the notebook's output cell 12. -/
def nbLeDual : List ℚ :=
  [14471806520291086 / 10 ^ 17,
   2827359317801117 / 10 ^ 16,
   -2103780441985366 / 10 ^ 16]

/-- Modelled from the spec: the external deterministic solver, as recorded
by the notebook's output cells — both statuses Optimal, the printed level
of `x` and dual of `le`; the unprinted level of `t` and dual of the cone
constraint are modelled to satisfy the §6 output contract. -/
def nbSolver : Problem → Solution := fun _ =>
  ⟨SolutionStatus.optimal, SolutionStatus.optimal,
   [nbXLevel, [nbTLevel]],
   [List.replicate 6 0, nbLeDual]⟩

/-- The notebook model after `M.solve()`. -/
def nbSolved : Model := nbModel.solve nbSolver

/-- Concrete variable assignment used to instantiate evaluation facts on
the notebook data: index 0 (`x`) gets the recorded level, index 1 (`t`)
the modelled scalar. -/
def nbAssign : Nat → List ℚ := fun i => if i = 0 then nbXLevel else [nbTLevel]

/-- Two-sided approximation: `a` equals `b` up to the tolerance `tol`. -/
def approxEq (a b tol : ℚ) : Prop := a - b ≤ tol ∧ b - a ≤ tol

/-- C1: for the concrete problem built in the notebook (n=5, the 3×5
matrix A, b of length 3, box bounds [0,1000]^5 on x, unbounded scalar t,
[t,x] in the second-order cone, equality A·x = b, objective minimize t),
the build succeeds, solve() reports primal status optimal, and the
returned primal x satisfies A·x ≈ b within 10⁻⁵ and ‖x‖₂ ≈ t (stated on
squares: t·t ≈ ⟨x,x⟩ within 10⁻³). -/
theorem c1_end_to_end :
    nbBuild = Except.ok (nbModel, xHandle, tHandle, leHandle) ∧
    nbSolved.primalStatus = Except.ok SolutionStatus.optimal ∧
    nbSolved.primalValue xHandle = Except.ok nbXLevel ∧
    nbSolved.primalValue tHandle = Except.ok [nbTLevel] ∧
    List.Forall₂ (fun a bi => approxEq a bi (1 / 100000))
      ((Expr.mulE nbA xHandle.toExpr).eval nbAssign) nbB ∧
    approxEq (nbTLevel * nbTLevel) (dot nbXLevel nbXLevel) (1 / 1000) := by
  refine ⟨rfl, rfl, rfl, rfl, ?_, ?_⟩
  · have hx : xHandle = ⟨0, 5⟩ := rfl
    rw [hx]
    simp only [Expr.eval, VariableHandle.toExpr, nbAssign, nbA, nbB, List.map_cons,
      List.map_nil, if_pos, List.forall₂_cons, List.forall₂_nil_right_iff,
      and_true]
    norm_num [approxEq, dot, nbXLevel]
  · norm_num [approxEq, dot, nbTLevel, nbXLevel]

/-- C2: for every model and every handle issued by it, each result-query
operation (primal value, dual value, primal status, dual status) fails
with NotSolvedError when no solve has happened yet (`sol = none`). -/
theorem c2_query_before_solve (M : Model) (h : VariableHandle) (hc : ConstraintHandle)
    (hns : M.sol = none) :
    M.primalValue h = Except.error FusionError.notSolvedError ∧
    M.dualValue hc = Except.error FusionError.notSolvedError ∧
    M.primalStatus = Except.error FusionError.notSolvedError ∧
    M.dualStatus = Except.error FusionError.notSolvedError := by
  simp [Model.primalValue, Model.dualValue, Model.primalStatus, Model.dualStatus, hns]

/-- Witness for C2 on the fully built, not yet solved notebook model. -/
theorem c2_query_before_solve_witness :
    nbModel.sol = none ∧
    nbModel.primalValue xHandle = Except.error FusionError.notSolvedError ∧
    nbModel.dualValue leHandle = Except.error FusionError.notSolvedError ∧
    nbModel.primalStatus = Except.error FusionError.notSolvedError ∧
    nbModel.dualStatus = Except.error FusionError.notSolvedError :=
  ⟨rfl, c2_query_before_solve nbModel xHandle leHandle rfl⟩

/-- C3: applying the matrix-multiply combinator to a (nonempty) matrix
whose column count differs from the length of the variable operand fails
with DimensionError at expression-construction time, independently of any
model or solve. -/
theorem c3_mul_wrong_columns (h : VariableHandle) (A : List (List ℚ)) (c : Nat)
    (hA : A ≠ []) (hall : ∀ r ∈ A, r.length = c) (hne : c ≠ h.shape) :
    Expr.mul A h.toExpr = Except.error FusionError.dimensionError := by
  obtain ⟨r, hr⟩ := List.exists_mem_of_ne_nil A hA
  rw [Expr.mul, if_neg]
  intro hforall
  exact hne ((hall r hr).symm.trans (hforall r hr))

/-- Witness for C3: a 1×2 matrix against a length-3 variable. -/
theorem c3_mul_wrong_columns_witness :
    (([[1, 2]] : List (List ℚ)) ≠ []) ∧
    (∀ r ∈ ([[1, 2]] : List (List ℚ)), r.length = 2) ∧
    (2 ≠ (⟨0, 3⟩ : VariableHandle).shape) ∧
    Expr.mul [[1, 2]] (VariableHandle.toExpr ⟨0, 3⟩) = Except.error FusionError.dimensionError :=
  ⟨by decide, by decide, by decide,
   c3_mul_wrong_columns ⟨0, 3⟩ [[1, 2]] 2 (by decide) (by decide) (by decide)⟩

/-- C4: once a variable with some name has been declared successfully,
declaring a second variable with the same name on the resulting model
fails with DuplicateNameError, whatever the shapes and domains of the two
declarations are. -/
theorem c4_duplicate_name (M M1 : Model) (h : VariableHandle) (name : String)
    (s1 s2 : Nat) (d1 d2 : Domain)
    (hfirst : M.declareVariable name s1 d1 = Except.ok (M1, h)) :
    M1.declareVariable name s2 d2 = Except.error FusionError.duplicateNameError := by
  unfold Model.declareVariable at hfirst ⊢
  by_cases h1 : ∃ v ∈ M.vars, v.name = name
  · rw [if_pos h1] at hfirst
    exact absurd hfirst (by simp)
  · rw [if_neg h1] at hfirst
    by_cases h2 : s1 = 0
    · rw [if_pos h2] at hfirst
      exact absurd hfirst (by simp)
    · rw [if_neg h2] at hfirst
      simp only [Except.ok.injEq, Prod.mk.injEq] at hfirst
      obtain ⟨hM1, _⟩ := hfirst
      rw [← hM1]
      rw [if_pos ⟨⟨name, s1, d1⟩, List.mem_append_right _ (List.mem_singleton.mpr rfl), rfl⟩]

/-- Witness for C4: declaring "x" twice on a fresh model. -/
theorem c4_duplicate_name_witness :
    Model.empty.declareVariable "x" 5 (Domain.inRange nbLx nbUx) =
      Except.ok (⟨[⟨"x", 5, Domain.inRange nbLx nbUx⟩], [], none, none⟩, ⟨0, 5⟩) ∧
    Model.declareVariable ⟨[⟨"x", 5, Domain.inRange nbLx nbUx⟩], [], none, none⟩
        "x" 2 Domain.unbounded = Except.error FusionError.duplicateNameError :=
  ⟨rfl, c4_duplicate_name Model.empty _ ⟨0, 5⟩ "x" 5 2 (Domain.inRange nbLx nbUx)
    Domain.unbounded rfl⟩

/-- C5: for every variable declared on a model, after a solve whose
outcome honours the solver output contract, the primal value vector
queried through the variable's handle has exactly the length of the shape
recorded at declaration. -/
theorem c5_primal_length (M : Model) (solver : Problem → Solution) (h : VariableHandle)
    (hconf : SolutionConforms M.problem (solver M.problem))
    (hlt : h.idx < M.vars.length) :
    (M.solve solver).primalValue h =
      Except.ok ((solver M.problem).varLevels.getD h.idx []) ∧
    ((solver M.problem).varLevels.getD h.idx []).length =
      (M.vars.getD h.idx dVarDecl).shape :=
  ⟨rfl, hconf.1 h.idx hlt⟩

/-- Witness for C5 on the notebook model, its recorded solver and `x`. -/
theorem c5_primal_length_witness :
    SolutionConforms nbModel.problem (nbSolver nbModel.problem) ∧
    xHandle.idx < nbModel.vars.length ∧
    (nbModel.solve nbSolver).primalValue xHandle =
      Except.ok ((nbSolver nbModel.problem).varLevels.getD xHandle.idx []) ∧
    ((nbSolver nbModel.problem).varLevels.getD xHandle.idx []).length =
      (nbModel.vars.getD xHandle.idx dVarDecl).shape :=
  ⟨by unfold SolutionConforms; decide, by decide,
   c5_primal_length nbModel nbSolver xHandle (by unfold SolutionConforms; decide) (by decide)⟩

/-- C6: vertically stacking a scalar handle `t` and a length-n handle `x`
(scalar first) gives an expression of length n+1 whose first entry is the
value of `t` and whose remaining entries are the values of `x` in order. -/
theorem c6_vstack_scalar_vector (t x : VariableHandle) (a : ℚ) (xs : List ℚ)
    (v : Nat → List ℚ) (ht : t.shape = 1) (hvt : v t.idx = [a]) (hvx : v x.idx = xs) :
    (Variable.vstack t x).len = x.shape + 1 ∧
    (Variable.vstack t x).eval v = a :: xs := by
  constructor
  · have h1 : (Variable.vstack t x).len = t.shape + x.shape := rfl
    rw [h1, ht, Nat.add_comm]
  · have h2 : (Variable.vstack t x).eval v = v t.idx ++ v x.idx := rfl
    rw [h2, hvt, hvx]
    rfl

/-- Witness for C6 on the notebook handles and the recorded levels. -/
theorem c6_vstack_scalar_vector_witness :
    tHandle.shape = 1 ∧
    nbAssign tHandle.idx = [nbTLevel] ∧
    nbAssign xHandle.idx = nbXLevel ∧
    (Variable.vstack tHandle xHandle).len = xHandle.shape + 1 ∧
    (Variable.vstack tHandle xHandle).eval nbAssign = nbTLevel :: nbXLevel :=
  ⟨rfl, rfl, rfl,
   c6_vstack_scalar_vector tHandle xHandle nbTLevel nbXLevel nbAssign rfl rfl rfl⟩

/-- C7: solving an unmodified model twice with the same (deterministic,
because pure) external solver yields identical statuses and identical
primal and dual values through every handle. -/
theorem c7_resolve_deterministic (M : Model) (solver : Problem → Solution)
    (h : VariableHandle) (hc : ConstraintHandle) :
    ((M.solve solver).solve solver).primalStatus = (M.solve solver).primalStatus ∧
    ((M.solve solver).solve solver).dualStatus = (M.solve solver).dualStatus ∧
    ((M.solve solver).solve solver).primalValue h = (M.solve solver).primalValue h ∧
    ((M.solve solver).solve solver).dualValue hc = (M.solve solver).dualValue hc :=
  ⟨rfl, rfl, rfl, rfl⟩

/-- C8: whatever the external solver reports — including infeasible,
unbounded or numerically failed outcomes — `solve()` records it as a
`SolutionStatus` value and never as an error, and the model afterwards
answers every status and value query with `Except.ok` on whatever the
solver returned. -/
theorem c8_outcome_is_status (M : Model) (solver : Problem → Solution)
    (h : VariableHandle) (hc : ConstraintHandle) :
    (M.solve solver).primalStatus = Except.ok (solver M.problem).primalStatus ∧
    (M.solve solver).dualStatus = Except.ok (solver M.problem).dualStatus ∧
    (M.solve solver).primalValue h =
      Except.ok ((solver M.problem).varLevels.getD h.idx []) ∧
    (M.solve solver).dualValue hc =
      Except.ok ((solver M.problem).conDuals.getD hc.idx []) :=
  ⟨rfl, rfl, rfl, rfl⟩

/-- C9: for every constraint declared on a model, after a solve whose
outcome honours the solver output contract, the dual multiplier vector
queried through the constraint's handle has exactly as many entries as
the constraint expression has rows. -/
theorem c9_dual_length (M : Model) (solver : Problem → Solution) (hc : ConstraintHandle)
    (hconf : SolutionConforms M.problem (solver M.problem))
    (hlt : hc.idx < M.cons.length) :
    (M.solve solver).dualValue hc =
      Except.ok ((solver M.problem).conDuals.getD hc.idx []) ∧
    ((solver M.problem).conDuals.getD hc.idx []).length =
      (M.cons.getD hc.idx dConDecl).expr.len :=
  ⟨rfl, hconf.2 hc.idx hlt⟩

/-- Witness for C9 on the notebook constraint `le` (the 3-row `A·x = b`):
its recorded dual has 3 entries. -/
theorem c9_dual_length_witness :
    SolutionConforms nbModel.problem (nbSolver nbModel.problem) ∧
    leHandle.idx < nbModel.cons.length ∧
    (nbModel.solve nbSolver).dualValue leHandle =
      Except.ok ((nbSolver nbModel.problem).conDuals.getD leHandle.idx []) ∧
    ((nbSolver nbModel.problem).conDuals.getD leHandle.idx []).length =
      (nbModel.cons.getD leHandle.idx dConDecl).expr.len :=
  ⟨by unfold SolutionConforms; decide, by decide,
   c9_dual_length nbModel nbSolver leHandle (by unfold SolutionConforms; decide) (by decide)⟩

/-- C10: the matrix-multiply combinator takes a plain nested list of
numbers as its constant matrix operand — no dedicated matrix type — and,
whenever the rows conform, builds the expression whose value is the list
of dot products of the inner lists (the rows) with the operand's value. -/
theorem c10_mul_nested_rows (A : List (List ℚ)) (e : Expr)
    (hall : ∀ r ∈ A, r.length = e.len) :
    Expr.mul A e = Except.ok (Expr.mulE A e) ∧
    ∀ v, (Expr.mulE A e).eval v = A.map (fun row => dot row (e.eval v)) := by
  refine ⟨?_, fun v => rfl⟩
  rw [Expr.mul, if_pos hall]

/-- Witness for C10 on the notebook's nested-list matrix `A` and `x`. -/
theorem c10_mul_nested_rows_witness :
    (∀ r ∈ nbA, r.length = (xHandle.toExpr).len) ∧
    Expr.mul nbA xHandle.toExpr = Except.ok (Expr.mulE nbA xHandle.toExpr) ∧
    (Expr.mulE nbA xHandle.toExpr).eval nbAssign =
      nbA.map (fun row => dot row (xHandle.toExpr.eval nbAssign)) :=
  ⟨by decide, (c10_mul_nested_rows nbA xHandle.toExpr (by decide)).1,
   (c10_mul_nested_rows nbA xHandle.toExpr (by decide)).2 nbAssign⟩

end Fusion
